import Mathlib

/-!
# hackpack-bot: the command handlers of `commands.go`

A shallow embedding of the three interaction handlers of `commands.go`
(`pingCommandCallback`, `ctfCommandCallback`, `joinCTFButtonCallback`).

A handler talks to the chat platform through the client library.  The
embedding makes that explicit:

* every call a handler issues (and every log line it prints) is recorded, in
  program order, in a trace of `Effect`s;
* the results the platform gives back, where the handler looks at them, are
  an input of the handler (`Outcomes`);
* a Go run-time panic (nil dereference, index out of range) ends the run with
  `panicked = true`; the trace holds what was issued before it.
-/

namespace HackpackBot

/-! ## Data of the client library that the handlers touch -/

/-- A guild role (`discordgo.Role`): the fields the handlers read. -/
structure Role where
  ID : String
  Name : String
deriving DecidableEq, Repr

/-- A guild (`discordgo.Guild`): its identifier and its role list.  The
entries of `Roles` are taken to be non-nil. -/
structure Guild where
  ID : String
  Roles : List Role
deriving DecidableEq, Repr

/-- A user (`discordgo.User`). -/
structure User where
  ID : String
  Username : String
deriving DecidableEq, Repr

/-- A guild member (`discordgo.Member`); `User` is a pointer and may be nil. -/
structure Member where
  User : Option User
deriving DecidableEq, Repr

/-- A message (`discordgo.Message`): its text content. -/
structure Message where
  Content : String
deriving DecidableEq, Repr

/-- An option of a sub-command (`ApplicationCommandInteractionDataOption` at
the second level); `Value` is what `StringValue()` returns (`ctf-name` is
registered as a string option). -/
structure DataOption where
  Name : String
  Value : String
deriving DecidableEq, Repr

/-- A first-level option of the command data, i.e. the invoked sub-command
with its own options. -/
structure SubCommandOption where
  Name : String
  Options : List DataOption
deriving DecidableEq, Repr

/-- An interaction event (`discordgo.InteractionCreate`).  `Message` and
`Member` are pointers and may be nil; `Options` is
`i.ApplicationCommandData().Options`. -/
structure InteractionCreate where
  GuildID : String
  Message : Option Message
  Member : Option Member
  Options : List SubCommandOption
deriving DecidableEq, Repr

/-- A button component (`discordgo.Button`). -/
structure Button where
  Label : String
  Style : Nat
  Disabled : Bool
  CustomID : String
deriving DecidableEq, Repr

/-- A row of components (`discordgo.ActionsRow`); the handlers only ever put
buttons in it. -/
structure ActionsRow where
  Components : List Button
deriving DecidableEq, Repr

/-- The reply to an interaction: `discordgo.InteractionResponse` together with
its `Data` (`InteractionResponseData`).  Fields a handler leaves out have Go's
zero value. -/
structure InteractionResponse where
  Typ : Nat
  Content : String := ""
  Components : List ActionsRow := []
  Flags : Nat := 0
deriving DecidableEq, Repr

/-- A permission overwrite of a channel (`discordgo.PermissionOverwrite`). -/
structure PermissionOverwrite where
  ID : String
  Typ : Nat
  Deny : Nat
  Allow : Nat
deriving DecidableEq, Repr

/-- The request of `GuildChannelCreateComplex`
(`discordgo.GuildChannelCreateData`). -/
structure GuildChannelCreateData where
  Name : String
  Typ : Nat
  Topic : String
  ParentID : String
  PermissionOverwrites : List PermissionOverwrite
deriving DecidableEq, Repr

/-- What is not defined in `commands.go` and is therefore a parameter of the
embedding: the numeric constants of the client library that the handlers
name, and the guild identifier of the process configuration
(`GlobalConfig.GuildID`). -/
structure Env where
  GuildID : String
  InteractionResponseChannelMessageWithSource : Nat
  SuccessButton : Nat
  ChannelTypeGuildText : Nat
  PermissionViewChannel : Nat
  PermissionSendMessages : Nat
deriving DecidableEq, Repr

/-- ID for the CTF text channel category (`const ctfCategoryID`). -/
def ctfCategoryID : String := "801259574317416479"

/-! ## Effects, outcomes and runs -/

/-- One observable action of a handler: a call on the session `s` with its
arguments, or a line written with `log`. -/
inductive Effect where
  | guildRoleCreate (guildID : String)
  | guildRoleEdit (guildID roleID name : String) (color : Nat) (hoist : Bool)
      (perm : Nat) (mention : Bool)
  | guild (guildID : String)
  | guildChannelCreateComplex (guildID : String) (data : GuildChannelCreateData)
  | guildMemberRoleAdd (guildID userID roleID : String)
  | interactionRespond (resp : InteractionResponse)
  | logPrintf (line : String)
  | logPrint (err : String)
deriving DecidableEq, Repr

/-- The results of the remote calls that a handler inspects.  A Go call
returning `(*T, error)` yields a pair: the pointer (`none` is nil) and the
error (`none` is nil, `some msg` carries `err.Error()`).  `respondErr` is the
error returned by the final status reply of `ctfCommandCallback`.  Results
that the handlers discard are not represented. -/
structure Outcomes where
  roleCreate : Option Role × Option String
  guild : Option Guild × Option String
  respondErr : Option String
deriving DecidableEq, Repr

/-- The run of a handler: what it issued, in order, and whether it ended in a
run-time panic instead of returning. -/
structure Run where
  trace : List Effect
  panicked : Bool
deriving DecidableEq, Repr

/-- How the body of a `switch` case ends: with a panic, with `return`, or by
reaching the end of the case, in which case the code after the `switch` runs
with the current `respContent` and `respComponents`. -/
inductive Ctl where
  | panic
  | ret
  | next (respContent : String) (respComponents : List ActionsRow)
deriving DecidableEq, Repr

/-! ## The handlers -/

/-- Ping command handler. -/
def pingCommandCallback (k : Env) (_i : InteractionCreate) (_o : Outcomes) : Run :=
  { trace := [Effect.interactionRespond
      { Typ := k.InteractionResponseChannelMessageWithSource, Content := "Pong!" }],
    panicked := false }

/-- The loop `for _, r := range roles { if r.Name == ctfName { ctfRole = r } }`
starting from `ctfRole = nil`: the loop has no `break`. -/
def findRoleLoop (roles : List Role) (ctfName : String) : Option Role :=
  roles.foldl (fun ctfRole r => if r.Name = ctfName then some r else ctfRole) none

/-- The reply sent when the guild cannot be fetched. -/
def guildNotFoundReply (k : Env) : InteractionResponse :=
  { Typ := k.InteractionResponseChannelMessageWithSource,
    Flags := 1 <<< 6,
    Content := "Couldn't find the calling Guild" }

/-- The reply sent when no role carries the name. -/
def roleMissingReply (k : Env) (ctfName : String) : InteractionResponse :=
  { Typ := k.InteractionResponseChannelMessageWithSource,
    Flags := 1 <<< 6,
    Content := "Role " ++ ctfName ++ " does not exist. Try creating it, first!" }

/-- The reply sent after the member was added to the role. -/
def addedReply (k : Env) (username roleName : String) : InteractionResponse :=
  { Typ := k.InteractionResponseChannelMessageWithSource,
    Flags := 1 <<< 6,
    Content := "Added user " ++ username ++ " to role " ++ roleName }

/-- The `case "create":` body of `ctfCommandCallback`, for the sub-command
option `opt = data.Options[0]`. -/
def createCase (k : Env) (i : InteractionCreate) (o : Outcomes)
    (opt : SubCommandOption) : List Effect × Ctl :=
  match opt.Options with
  | [] => ([], Ctl.panic) -- data.Options[0].Options[0]: index out of range
  | a :: _ =>
    let ctfName := a.Value
    let t1 := [Effect.logPrintf ("New CTF Name given: " ++ ctfName ++ "\n"),
               Effect.guildRoleCreate k.GuildID]
    let newRole := o.roleCreate.1
    -- if err != nil { respContent = ... } else { GuildRoleEdit(...); respContent = ctfName }
    let afterRole : Option (List Effect × String) :=
      match o.roleCreate.2 with
      | some err => some ([], "Could not create new guild role: " ++ err)
      | none =>
        match newRole with
        | none => none -- newRole.ID on a nil role
        | some r =>
          some ([Effect.guildRoleEdit k.GuildID r.ID ctfName 0 false 0 true], ctfName)
    match afterRole with
    | none => (t1, Ctl.panic)
    | some (t2, respContent) =>
      let actionRow : ActionsRow :=
        { Components := [{ Label := "Join " ++ ctfName, Style := k.SuccessButton,
                           Disabled := false, CustomID := "ctf_join" }] }
      let respComponents := [actionRow]
      -- targetGuild, _ := s.Guild(i.GuildID)
      let t3 := t1 ++ t2 ++ [Effect.guild i.GuildID]
      match o.guild.1 with
      | none => (t3, Ctl.panic) -- targetGuild.Roles on a nil guild
      | some targetGuild =>
        match targetGuild.Roles with
        | [] => (t3, Ctl.panic) -- targetGuild.Roles[0]: index out of range
        | everyone :: _ =>
          let everyoneID := everyone.ID
          match newRole with
          | none => (t3, Ctl.panic) -- newRole.ID on a nil role
          | some r =>
            (t3 ++ [Effect.guildChannelCreateComplex i.GuildID
              { Name := ctfName,
                Typ := k.ChannelTypeGuildText,
                Topic := "Channel for " ++ ctfName,
                ParentID := ctfCategoryID,
                PermissionOverwrites :=
                  [ { ID := everyoneID, Typ := 0, Deny := k.PermissionViewChannel, Allow := 0 },
                    { ID := r.ID, Typ := 0, Deny := 0,
                      Allow := k.PermissionViewChannel ||| k.PermissionSendMessages } ] }],
             Ctl.next respContent respComponents)

/-- The `case "join":` body of `ctfCommandCallback`.  Where the body reaches
its end, `respContent` and `respComponents` still have their zero values. -/
def joinCase (k : Env) (i : InteractionCreate) (o : Outcomes) : List Effect × Ctl :=
  let t1 := [Effect.guild i.GuildID]
  match o.guild.2 with
  | some _ => (t1 ++ [Effect.interactionRespond (guildNotFoundReply k)], Ctl.ret)
  | none =>
    match i.Message with
    | none => (t1, Ctl.panic) -- i.Message.Content on a nil message
    | some msg =>
      let ctfName := msg.Content
      match i.Member with
      | none => (t1, Ctl.panic) -- i.Member.User on a nil member
      | some member =>
        match member.User with
        | none => (t1, Ctl.panic) -- callingUser.Username on a nil user
        | some callingUser =>
          let t2 := t1 ++ [Effect.logPrintf
            ("Adding user " ++ callingUser.Username ++ " to CTF " ++ ctfName ++ "\n")]
          match o.guild.1 with
          | none => (t2, Ctl.panic) -- guild.Roles on a nil guild
          | some guild =>
            match findRoleLoop guild.Roles ctfName with
            | none => (t2 ++ [Effect.interactionRespond (roleMissingReply k ctfName)], Ctl.ret)
            | some ctfRole =>
              (t2 ++ [Effect.guildMemberRoleAdd guild.ID callingUser.ID ctfRole.ID,
                      Effect.interactionRespond
                        (addedReply k callingUser.Username ctfRole.Name)],
               Ctl.next "" [])

/-- The code after the `switch` of `ctfCommandCallback`: send back the status
reply and log the error of that send, if any. -/
def statusReply (k : Env) (o : Outcomes) (respContent : String)
    (respComponents : List ActionsRow) : List Effect :=
  Effect.interactionRespond
      { Typ := k.InteractionResponseChannelMessageWithSource,
        Content := respContent, Components := respComponents }
    :: (match o.respondErr with
        | some err => [Effect.logPrint err]
        | none => [])

/-- This function handles the response action(s) for the 'ctf' group of
ApplicationCommands.  The event is a command invocation (the handler table
`commandHandlers` is keyed by command name), so `i.ApplicationCommandData()`
yields the command data, whose option list is `i.Options`. -/
def ctfCommandCallback (k : Env) (i : InteractionCreate) (o : Outcomes) : Run :=
  match i.Options with
  | [] => { trace := [], panicked := true } -- data.Options[0]: index out of range
  | opt :: _ =>
    let body : List Effect × Ctl :=
      if opt.Name = "create" then createCase k i o opt
      else if opt.Name = "join" then joinCase k i o
      else ([], Ctl.next "" [])
    match body.2 with
    | Ctl.panic => { trace := body.1, panicked := true }
    | Ctl.ret => { trace := body.1, panicked := false }
    | Ctl.next respContent respComponents =>
      { trace := body.1 ++ statusReply k o respContent respComponents, panicked := false }

/-- The handler of the `ctf_join` button. -/
def joinCTFButtonCallback (k : Env) (i : InteractionCreate) (o : Outcomes) : Run :=
  let t1 := [Effect.guild i.GuildID]
  match o.guild.2 with
  | some _ =>
    { trace := t1 ++ [Effect.interactionRespond (guildNotFoundReply k)], panicked := false }
  | none =>
    match i.Message with
    | none => { trace := t1, panicked := true } -- i.Message.Content on a nil message
    | some msg =>
      let ctfName := msg.Content
      match i.Member with
      | none => { trace := t1, panicked := true } -- i.Member.User on a nil member
      | some member =>
        match member.User with
        | none => { trace := t1, panicked := true } -- callingUser.Username on a nil user
        | some callingUser =>
          let t2 := t1 ++ [Effect.logPrintf
            ("Adding user " ++ callingUser.Username ++ " to CTF " ++ ctfName ++ "\n")]
          match o.guild.1 with
          | none => { trace := t2, panicked := true } -- guild.Roles on a nil guild
          | some guild =>
            match findRoleLoop guild.Roles ctfName with
            | none =>
              { trace := t2 ++ [Effect.interactionRespond (roleMissingReply k ctfName)],
                panicked := false }
            | some ctfRole =>
              { trace := t2 ++ [Effect.guildMemberRoleAdd guild.ID callingUser.ID ctfRole.ID,
                                Effect.interactionRespond
                                  (addedReply k callingUser.Username ctfRole.Name)],
                panicked := false }

/-! ## Observations on runs -/

/-- Whether an effect is a call on the platform (not a log line). -/
def Effect.isRemote : Effect → Bool
  | Effect.logPrintf _ => false
  | Effect.logPrint _ => false
  | _ => true

/-- Whether an effect is a send of an interaction response. -/
def Effect.isRespond : Effect → Bool
  | Effect.interactionRespond _ => true
  | _ => false

/-- Whether an effect is a create-channel call. -/
def Effect.isChannelCreate : Effect → Bool
  | Effect.guildChannelCreateComplex _ _ => true
  | _ => false

/-- Whether an effect is a create-role call. -/
def Effect.isRoleCreate : Effect → Bool
  | Effect.guildRoleCreate _ => true
  | _ => false

/-- Whether an effect is an edit-role call. -/
def Effect.isRoleEdit : Effect → Bool
  | Effect.guildRoleEdit _ _ _ _ _ _ _ => true
  | _ => false

/-- Whether an effect is an add-member-role call. -/
def Effect.isRoleAdd : Effect → Bool
  | Effect.guildMemberRoleAdd _ _ _ => true
  | _ => false

/-- The remote calls of a run, in order. -/
def Run.remoteCalls (r : Run) : List Effect := r.trace.filter Effect.isRemote

/-- The interaction responses a run sent, in order. -/
def Run.responses (r : Run) : List Effect := r.trace.filter Effect.isRespond

/-- The constants of the client library at their documented values, with a
sample configured guild. -/
def sampleEnv : Env :=
  { GuildID := "g0",
    InteractionResponseChannelMessageWithSource := 4,
    SuccessButton := 3,
    ChannelTypeGuildText := 0,
    PermissionViewChannel := 1024,
    PermissionSendMessages := 2048 }

/-! ## Sample inputs -/

/-- A member "bob" of the guild. -/
def bob : User := { ID := "u1", Username := "bob" }

/-- A guild with the base role and two roles that are both named "ctf". -/
def guildTwoCtf : Guild :=
  { ID := "g1",
    Roles := [{ ID := "r0", Name := "@everyone" }, { ID := "r1", Name := "ctf" },
              { ID := "r2", Name := "ctf" }] }

/-- A guild with only the base role. -/
def guildPlain : Guild :=
  { ID := "g1", Roles := [{ ID := "r0", Name := "@everyone" }] }

/-- A click on the join button under the message "ctf". -/
def clickJoin : InteractionCreate :=
  { GuildID := "g1", Message := some { Content := "ctf" },
    Member := some { User := some bob }, Options := [] }

/-- The event `/ctf join` as the platform delivers it: a slash command carries
no message. -/
def slashJoin : InteractionCreate :=
  { GuildID := "g1", Message := none, Member := some { User := some bob },
    Options := [{ Name := "join", Options := [] }] }

/-- The event `/ctf join` with a message "ctf" attached. -/
def slashJoinMsg : InteractionCreate :=
  { GuildID := "g1", Message := some { Content := "ctf" },
    Member := some { User := some bob },
    Options := [{ Name := "join", Options := [] }] }

/-- The event `/ctf create ctf-name:ctf`. -/
def slashCreate : InteractionCreate :=
  { GuildID := "g1", Message := none, Member := some { User := some bob },
    Options := [{ Name := "create", Options := [{ Name := "ctf-name", Value := "ctf" }] }] }

/-- Every remote call succeeds; the guild has two roles named "ctf". -/
def okTwoCtf : Outcomes :=
  { roleCreate := (some { ID := "r9", Name := "new role" }, none),
    guild := (some guildTwoCtf, none), respondErr := none }

/-- Every remote call succeeds; the guild has only the base role. -/
def okPlain : Outcomes :=
  { roleCreate := (some { ID := "r9", Name := "new role" }, none),
    guild := (some guildPlain, none), respondErr := none }

/-- The create-role call fails with "boom" (nil role); the guild fetch
succeeds. -/
def roleCreateFails : Outcomes :=
  { roleCreate := (none, some "boom"), guild := (some guildPlain, none), respondErr := none }

/-- The create-role call succeeds; the guild fetch fails (nil guild). -/
def guildFails : Outcomes :=
  { roleCreate := (some { ID := "r9", Name := "new role" }, none),
    guild := (none, some "HTTP 404"), respondErr := none }

/-- The create-role call succeeds; the fetched guild has an empty role list. -/
def guildNoRoles : Outcomes :=
  { roleCreate := (some { ID := "r9", Name := "new role" }, none),
    guild := (some { ID := "g1", Roles := [] }, none), respondErr := none }

/-! ## Lemmas on the role scan -/

/-- The scan from an arbitrary current value of `ctfRole`. -/
theorem scan_no_match (roles : List Role) (n : String) (acc : Option Role)
    (h : ∀ x ∈ roles, x.Name ≠ n) :
    roles.foldl (fun ctfRole r => if r.Name = n then some r else ctfRole) acc = acc := by
  induction roles generalizing acc with
  | nil => rfl
  | cons x xs ih =>
    have hx : x.Name ≠ n := h x (List.mem_cons_self x xs)
    have hxs : ∀ y ∈ xs, y.Name ≠ n := fun y hy => h y (List.mem_cons_of_mem x hy)
    simp only [List.foldl_cons, if_neg hx]
    exact ih acc hxs

/-- The scan returns the last role carrying the name. -/
theorem findRoleLoop_last (pre post : List Role) (r : Role) (n : String)
    (hr : r.Name = n) (hpost : ∀ x ∈ post, x.Name ≠ n) :
    findRoleLoop (pre ++ r :: post) n = some r := by
  unfold findRoleLoop
  simp only [List.foldl_append, List.foldl_cons, if_pos hr]
  exact scan_no_match post n (some r) hpost

/-- The scan finds nothing exactly when no role carries the name. -/
theorem findRoleLoop_none (roles : List Role) (n : String)
    (h : ∀ x ∈ roles, x.Name ≠ n) : findRoleLoop roles n = none :=
  scan_no_match roles n none h

/-- A list with a role named `n` splits around the last such role. -/
theorem exists_last_named (roles : List Role) (n : String)
    (h : ∃ r ∈ roles, r.Name = n) :
    ∃ pre r post, roles = pre ++ r :: post ∧ r.Name = n ∧ ∀ x ∈ post, x.Name ≠ n := by
  induction roles with
  | nil => obtain ⟨r, hr, _⟩ := h; cases hr
  | cons x xs ih =>
    by_cases hxs : ∃ r ∈ xs, r.Name = n
    · obtain ⟨pre, r, post, hsplit, hname, hpost⟩ := ih hxs
      exact ⟨x :: pre, r, post, by rw [hsplit]; rfl, hname, hpost⟩
    · obtain ⟨r, hr, hname⟩ := h
      rcases List.mem_cons.mp hr with rfl | hmem
      · refine ⟨[], r, xs, rfl, hname, ?_⟩
        intro y hy hyn
        exact hxs ⟨y, hy, hyn⟩
      · exact absurd ⟨r, hmem, hname⟩ hxs

/-- When some role carries the name, the scan returns a role of the list that
carries it. -/
theorem findRoleLoop_some (roles : List Role) (n : String)
    (h : ∃ r ∈ roles, r.Name = n) :
    ∃ r, findRoleLoop roles n = some r ∧ r ∈ roles ∧ r.Name = n := by
  obtain ⟨pre, r, post, hsplit, hname, hpost⟩ := exists_last_named roles n h
  refine ⟨r, ?_, ?_, hname⟩
  · rw [hsplit]; exact findRoleLoop_last pre post r n hname hpost
  · rw [hsplit]; simp

/-! ## Theorems -/


/-- C7: for every event and every outcome, `pingCommandCallback` issues exactly
one call, a send of an interaction response whose content is "Pong!" and whose
component list is empty, and returns. -/
theorem ping_replies_pong (k : Env) (i : InteractionCreate) (o : Outcomes) :
    ∃ resp : InteractionResponse,
      (pingCommandCallback k i o).trace = [Effect.interactionRespond resp] ∧
      resp.Content = "Pong!" ∧ resp.Components = [] ∧
      (pingCommandCallback k i o).panicked = false :=
  ⟨_, rfl, rfl, rfl, rfl⟩

/-- The run of the button handler once the guild is fetched, the event carries
a message and a user, and the scan has selected `ctfRole`. -/
theorem button_run_found (k : Env) (i : InteractionCreate) (o : Outcomes)
    (G : String) (U : User) (g : Guild) (ctfRole : Role)
    (hmsg : i.Message = some { Content := G })
    (hmem : i.Member = some { User := some U })
    (hg : o.guild = (some g, none))
    (hfind : findRoleLoop g.Roles G = some ctfRole) :
    joinCTFButtonCallback k i o =
      { trace := [Effect.guild i.GuildID,
                  Effect.logPrintf ("Adding user " ++ U.Username ++ " to CTF " ++ G ++ "\n"),
                  Effect.guildMemberRoleAdd g.ID U.ID ctfRole.ID,
                  Effect.interactionRespond (addedReply k U.Username ctfRole.Name)],
        panicked := false } := by
  simp [joinCTFButtonCallback, hmsg, hmem, hg, hfind]

/-- The run of the `join` sub-command once the guild is fetched, the event
carries a message and a user, and the scan has selected `ctfRole`. -/
theorem ctf_join_run_found (k : Env) (i : InteractionCreate) (o : Outcomes)
    (G : String) (U : User) (g : Guild) (ctfRole : Role)
    (opt : SubCommandOption) (rest : List SubCommandOption)
    (hopt : i.Options = opt :: rest) (hname : opt.Name = "join")
    (hmsg : i.Message = some { Content := G })
    (hmem : i.Member = some { User := some U })
    (hg : o.guild = (some g, none))
    (hfind : findRoleLoop g.Roles G = some ctfRole) :
    ctfCommandCallback k i o =
      { trace := [Effect.guild i.GuildID,
                  Effect.logPrintf ("Adding user " ++ U.Username ++ " to CTF " ++ G ++ "\n"),
                  Effect.guildMemberRoleAdd g.ID U.ID ctfRole.ID,
                  Effect.interactionRespond (addedReply k U.Username ctfRole.Name)]
                 ++ statusReply k o "" [],
        panicked := false } := by
  have hne : ¬ ("join" = "create") := by decide
  simp [ctfCommandCallback, joinCase, hopt, hname, hne, hmsg, hmem, hg, hfind]

/-- The run of the button handler once the guild is fetched, the event carries
a message and a user, and the scan has found no role. -/
theorem button_run_missing (k : Env) (i : InteractionCreate) (o : Outcomes)
    (N : String) (U : User) (g : Guild)
    (hmsg : i.Message = some { Content := N })
    (hmem : i.Member = some { User := some U })
    (hg : o.guild = (some g, none))
    (hfind : findRoleLoop g.Roles N = none) :
    joinCTFButtonCallback k i o =
      { trace := [Effect.guild i.GuildID,
                  Effect.logPrintf ("Adding user " ++ U.Username ++ " to CTF " ++ N ++ "\n"),
                  Effect.interactionRespond (roleMissingReply k N)],
        panicked := false } := by
  simp [joinCTFButtonCallback, hmsg, hmem, hg, hfind]

/-- The run of the `join` sub-command once the guild is fetched, the event
carries a message and a user, and the scan has found no role. -/
theorem ctf_join_run_missing (k : Env) (i : InteractionCreate) (o : Outcomes)
    (N : String) (U : User) (g : Guild)
    (opt : SubCommandOption) (rest : List SubCommandOption)
    (hopt : i.Options = opt :: rest) (hname : opt.Name = "join")
    (hmsg : i.Message = some { Content := N })
    (hmem : i.Member = some { User := some U })
    (hg : o.guild = (some g, none))
    (hfind : findRoleLoop g.Roles N = none) :
    ctfCommandCallback k i o =
      { trace := [Effect.guild i.GuildID,
                  Effect.logPrintf ("Adding user " ++ U.Username ++ " to CTF " ++ N ++ "\n"),
                  Effect.interactionRespond (roleMissingReply k N)],
        panicked := false } := by
  have hne : ¬ ("join" = "create") := by decide
  simp [ctfCommandCallback, joinCase, hopt, hname, hne, hmsg, hmem, hg, hfind]

/-- C3: when the guild fetch succeeds with a guild `g` whose role list has a
role named exactly the message content `G`, and the event carries the invoking
user `U`, then the button handler, and the `join` sub-command of
`ctfCommandCallback` as well, issues add-member-role with `g`'s ID, `U`'s ID
and the ID of a role of `g` named `G`, and sends a reply whose flags are
`1 <<< 6 = 64` (ephemeral) and whose content is
"Added user " ++ U.Username ++ " to role " ++ G. -/
theorem join_adds_member_and_replies (k : Env) (i : InteractionCreate) (o : Outcomes)
    (G : String) (U : User) (g : Guild)
    (hmsg : i.Message = some { Content := G })
    (hmem : i.Member = some { User := some U })
    (hg : o.guild = (some g, none))
    (hrole : ∃ r ∈ g.Roles, r.Name = G) :
    (∃ r ∈ g.Roles, r.Name = G ∧ ∃ resp : InteractionResponse,
        Effect.guildMemberRoleAdd g.ID U.ID r.ID ∈ (joinCTFButtonCallback k i o).trace ∧
        Effect.interactionRespond resp ∈ (joinCTFButtonCallback k i o).trace ∧
        resp.Flags = 64 ∧
        resp.Content = "Added user " ++ U.Username ++ " to role " ++ G) ∧
    (∀ (opt : SubCommandOption) (rest : List SubCommandOption),
      i.Options = opt :: rest → opt.Name = "join" →
      ∃ r ∈ g.Roles, r.Name = G ∧ ∃ resp : InteractionResponse,
        Effect.guildMemberRoleAdd g.ID U.ID r.ID ∈ (ctfCommandCallback k i o).trace ∧
        Effect.interactionRespond resp ∈ (ctfCommandCallback k i o).trace ∧
        resp.Flags = 64 ∧
        resp.Content = "Added user " ++ U.Username ++ " to role " ++ G) := by
  obtain ⟨r, hfind, hmemr, hrname⟩ := findRoleLoop_some g.Roles G hrole
  constructor
  · refine ⟨r, hmemr, hrname, addedReply k U.Username r.Name, ?_, ?_, rfl, ?_⟩
    · rw [button_run_found k i o G U g r hmsg hmem hg hfind]; simp
    · rw [button_run_found k i o G U g r hmsg hmem hg hfind]; simp
    · simp [addedReply, hrname]
  · intro opt rest hopt hname
    refine ⟨r, hmemr, hrname, addedReply k U.Username r.Name, ?_, ?_, rfl, ?_⟩
    · rw [ctf_join_run_found k i o G U g r opt rest hopt hname hmsg hmem hg hfind]; simp
    · rw [ctf_join_run_found k i o G U g r opt rest hopt hname hmsg hmem hg hfind]; simp
    · simp [addedReply, hrname]

/-- Witness of C3: the button click and the `join` sub-command under the
message "ctf", by "bob", in a guild that has roles named "ctf". -/
theorem join_adds_member_and_replies_witness :
    slashJoinMsg.Message = some { Content := "ctf" } ∧
    slashJoinMsg.Member = some { User := some bob } ∧
    okTwoCtf.guild = (some guildTwoCtf, none) ∧
    (∃ r ∈ guildTwoCtf.Roles, r.Name = "ctf") ∧
    ((∃ r ∈ guildTwoCtf.Roles, r.Name = "ctf" ∧ ∃ resp : InteractionResponse,
        Effect.guildMemberRoleAdd guildTwoCtf.ID bob.ID r.ID
          ∈ (joinCTFButtonCallback sampleEnv slashJoinMsg okTwoCtf).trace ∧
        Effect.interactionRespond resp
          ∈ (joinCTFButtonCallback sampleEnv slashJoinMsg okTwoCtf).trace ∧
        resp.Flags = 64 ∧
        resp.Content = "Added user " ++ bob.Username ++ " to role " ++ "ctf") ∧
     (∀ (opt : SubCommandOption) (rest : List SubCommandOption),
      slashJoinMsg.Options = opt :: rest → opt.Name = "join" →
      ∃ r ∈ guildTwoCtf.Roles, r.Name = "ctf" ∧ ∃ resp : InteractionResponse,
        Effect.guildMemberRoleAdd guildTwoCtf.ID bob.ID r.ID
          ∈ (ctfCommandCallback sampleEnv slashJoinMsg okTwoCtf).trace ∧
        Effect.interactionRespond resp
          ∈ (ctfCommandCallback sampleEnv slashJoinMsg okTwoCtf).trace ∧
        resp.Flags = 64 ∧
        resp.Content = "Added user " ++ bob.Username ++ " to role " ++ "ctf")) :=
  ⟨rfl, rfl, rfl, ⟨{ ID := "r1", Name := "ctf" }, by decide, rfl⟩,
   join_adds_member_and_replies sampleEnv slashJoinMsg okTwoCtf "ctf" bob guildTwoCtf
     rfl rfl rfl ⟨{ ID := "r1", Name := "ctf" }, by decide, rfl⟩⟩

/-- C4: when the guild fetch succeeds with a guild `g` none of whose roles is
named the message content `N`, the button handler, and the `join` sub-command
of `ctfCommandCallback` as well, issues no add-member-role call, sends as its
only reply one whose flags are `1 <<< 6 = 64` (ephemeral) and whose content is
"Role " ++ N ++ " does not exist. Try creating it, first!", and returns. -/
theorem join_unknown_role_replies (k : Env) (i : InteractionCreate) (o : Outcomes)
    (N : String) (U : User) (g : Guild)
    (hmsg : i.Message = some { Content := N })
    (hmem : i.Member = some { User := some U })
    (hg : o.guild = (some g, none))
    (hnone : ∀ r ∈ g.Roles, r.Name ≠ N) :
    (∃ resp : InteractionResponse,
        (joinCTFButtonCallback k i o).trace.filter Effect.isRoleAdd = [] ∧
        (joinCTFButtonCallback k i o).responses = [Effect.interactionRespond resp] ∧
        resp.Flags = 64 ∧
        resp.Content = "Role " ++ N ++ " does not exist. Try creating it, first!" ∧
        (joinCTFButtonCallback k i o).panicked = false) ∧
    (∀ (opt : SubCommandOption) (rest : List SubCommandOption),
      i.Options = opt :: rest → opt.Name = "join" →
      ∃ resp : InteractionResponse,
        (ctfCommandCallback k i o).trace.filter Effect.isRoleAdd = [] ∧
        (ctfCommandCallback k i o).responses = [Effect.interactionRespond resp] ∧
        resp.Flags = 64 ∧
        resp.Content = "Role " ++ N ++ " does not exist. Try creating it, first!" ∧
        (ctfCommandCallback k i o).panicked = false) := by
  have hfind := findRoleLoop_none g.Roles N hnone
  constructor
  · rw [button_run_missing k i o N U g hmsg hmem hg hfind]
    exact ⟨roleMissingReply k N, rfl, rfl, rfl, rfl, rfl⟩
  · intro opt rest hopt hname
    rw [ctf_join_run_missing k i o N U g opt rest hopt hname hmsg hmem hg hfind]
    exact ⟨roleMissingReply k N, rfl, rfl, rfl, rfl, rfl⟩

/-- Witness of C4: joining "ctf" in a guild that has only the base role. -/
theorem join_unknown_role_replies_witness :
    slashJoinMsg.Message = some { Content := "ctf" } ∧
    slashJoinMsg.Member = some { User := some bob } ∧
    okPlain.guild = (some guildPlain, none) ∧
    (∀ r ∈ guildPlain.Roles, r.Name ≠ "ctf") ∧
    ((∃ resp : InteractionResponse,
        (joinCTFButtonCallback sampleEnv slashJoinMsg okPlain).trace.filter Effect.isRoleAdd = [] ∧
        (joinCTFButtonCallback sampleEnv slashJoinMsg okPlain).responses
          = [Effect.interactionRespond resp] ∧
        resp.Flags = 64 ∧
        resp.Content = "Role " ++ "ctf" ++ " does not exist. Try creating it, first!" ∧
        (joinCTFButtonCallback sampleEnv slashJoinMsg okPlain).panicked = false) ∧
     (∀ (opt : SubCommandOption) (rest : List SubCommandOption),
      slashJoinMsg.Options = opt :: rest → opt.Name = "join" →
      ∃ resp : InteractionResponse,
        (ctfCommandCallback sampleEnv slashJoinMsg okPlain).trace.filter Effect.isRoleAdd = [] ∧
        (ctfCommandCallback sampleEnv slashJoinMsg okPlain).responses
          = [Effect.interactionRespond resp] ∧
        resp.Flags = 64 ∧
        resp.Content = "Role " ++ "ctf" ++ " does not exist. Try creating it, first!" ∧
        (ctfCommandCallback sampleEnv slashJoinMsg okPlain).panicked = false)) :=
  ⟨rfl, rfl, rfl, by decide,
   join_unknown_role_replies sampleEnv slashJoinMsg okPlain "ctf" bob guildPlain
     rfl rfl rfl (by decide)⟩

/-- The run of the `create` sub-command when the role is created and the
fetched guild has a non-empty role list. -/
theorem ctf_create_run_ok (k : Env) (i : InteractionCreate) (o : Outcomes)
    (opt : SubCommandOption) (rest : List SubCommandOption)
    (a : DataOption) (more : List DataOption)
    (newRole : Role) (g : Guild) (gerr : Option String) (base : Role) (others : List Role)
    (hopt : i.Options = opt :: rest) (hname : opt.Name = "create")
    (harg : opt.Options = a :: more)
    (hrole : o.roleCreate = (some newRole, none))
    (hg : o.guild = (some g, gerr))
    (hroles : g.Roles = base :: others) :
    ctfCommandCallback k i o =
      { trace :=
          [Effect.logPrintf ("New CTF Name given: " ++ a.Value ++ "\n"),
           Effect.guildRoleCreate k.GuildID,
           Effect.guildRoleEdit k.GuildID newRole.ID a.Value 0 false 0 true,
           Effect.guild i.GuildID,
           Effect.guildChannelCreateComplex i.GuildID
             { Name := a.Value,
               Typ := k.ChannelTypeGuildText,
               Topic := "Channel for " ++ a.Value,
               ParentID := ctfCategoryID,
               PermissionOverwrites :=
                 [ { ID := base.ID, Typ := 0, Deny := k.PermissionViewChannel, Allow := 0 },
                   { ID := newRole.ID, Typ := 0, Deny := 0,
                     Allow := k.PermissionViewChannel ||| k.PermissionSendMessages } ] }]
          ++ statusReply k o a.Value
               [{ Components := [{ Label := "Join " ++ a.Value, Style := k.SuccessButton,
                                   Disabled := false, CustomID := "ctf_join" }] }],
        panicked := false } := by
  simp [ctfCommandCallback, createCase, hopt, hname, harg, hrole, hg, hroles]

/-- C5: when create-role succeeds with `newRole` and get-guild succeeds with a
guild whose role list starts with `base`, the `create` sub-command with option
value `ctfName` issues exactly one create-role call and exactly one
create-channel call; the channel request has name `ctfName`, topic
"Channel for " ++ ctfName, the text channel type, the parent category
"801259574317416479" and exactly two permission overwrites: for `base.ID`,
denying view-channel and allowing nothing, and for `newRole.ID`, allowing
view-channel ||| send-messages and denying nothing. -/
theorem create_issues_one_role_one_channel (k : Env) (i : InteractionCreate) (o : Outcomes)
    (opt : SubCommandOption) (rest : List SubCommandOption)
    (a : DataOption) (more : List DataOption) (ctfName : String)
    (newRole : Role) (g : Guild) (base : Role) (others : List Role)
    (hopt : i.Options = opt :: rest) (hname : opt.Name = "create")
    (harg : opt.Options = a :: more) (hval : a.Value = ctfName)
    (hrole : o.roleCreate = (some newRole, none))
    (hg : o.guild = (some g, none))
    (hroles : g.Roles = base :: others) :
    (ctfCommandCallback k i o).trace.filter Effect.isRoleCreate
      = [Effect.guildRoleCreate k.GuildID] ∧
    (ctfCommandCallback k i o).trace.filter Effect.isChannelCreate
      = [Effect.guildChannelCreateComplex i.GuildID
          { Name := ctfName,
            Typ := k.ChannelTypeGuildText,
            Topic := "Channel for " ++ ctfName,
            ParentID := "801259574317416479",
            PermissionOverwrites :=
              [ { ID := base.ID, Typ := 0, Deny := k.PermissionViewChannel, Allow := 0 },
                { ID := newRole.ID, Typ := 0, Deny := 0,
                  Allow := k.PermissionViewChannel ||| k.PermissionSendMessages } ] }] ∧
    (ctfCommandCallback k i o).panicked = false := by
  rw [ctf_create_run_ok k i o opt rest a more newRole g none base others
        hopt hname harg hrole hg hroles]
  subst hval
  cases hre : o.respondErr <;>
    simp [statusReply, hre, Effect.isRoleCreate, Effect.isChannelCreate, ctfCategoryID]

/-- Witness of C5: `/ctf create ctf-name:ctf` when every call succeeds. -/
theorem create_issues_one_role_one_channel_witness :
    slashCreate.Options
      = { Name := "create", Options := [{ Name := "ctf-name", Value := "ctf" }] } :: [] ∧
    okPlain.roleCreate = (some { ID := "r9", Name := "new role" }, none) ∧
    okPlain.guild = (some guildPlain, none) ∧
    guildPlain.Roles = { ID := "r0", Name := "@everyone" } :: [] ∧
    ((ctfCommandCallback sampleEnv slashCreate okPlain).trace.filter Effect.isRoleCreate
      = [Effect.guildRoleCreate sampleEnv.GuildID] ∧
    (ctfCommandCallback sampleEnv slashCreate okPlain).trace.filter Effect.isChannelCreate
      = [Effect.guildChannelCreateComplex slashCreate.GuildID
          { Name := "ctf",
            Typ := sampleEnv.ChannelTypeGuildText,
            Topic := "Channel for " ++ "ctf",
            ParentID := "801259574317416479",
            PermissionOverwrites :=
              [ { ID := "r0", Typ := 0, Deny := sampleEnv.PermissionViewChannel, Allow := 0 },
                { ID := "r9", Typ := 0, Deny := 0,
                  Allow := sampleEnv.PermissionViewChannel |||
                    sampleEnv.PermissionSendMessages } ] }] ∧
    (ctfCommandCallback sampleEnv slashCreate okPlain).panicked = false) :=
  ⟨rfl, rfl, rfl, rfl,
   create_issues_one_role_one_channel sampleEnv slashCreate okPlain
     { Name := "create", Options := [{ Name := "ctf-name", Value := "ctf" }] } []
     { Name := "ctf-name", Value := "ctf" } [] "ctf"
     { ID := "r9", Name := "new role" } guildPlain { ID := "r0", Name := "@everyone" } []
     rfl rfl rfl rfl rfl rfl rfl⟩

/-- C8, the claim as stated fails: with two roles named "ctf" in the list, the
button handler and the `join` sub-command do not pass the first of them
(`r1`) to add-member-role; they pass the second (`r2`). -/
theorem join_not_first_match :
    guildTwoCtf.Roles.filter (fun r => r.Name = "ctf")
      = [{ ID := "r1", Name := "ctf" }, { ID := "r2", Name := "ctf" }] ∧
    (joinCTFButtonCallback sampleEnv clickJoin okTwoCtf).trace.filter Effect.isRoleAdd
      = [Effect.guildMemberRoleAdd "g1" "u1" "r2"] ∧
    Effect.guildMemberRoleAdd "g1" "u1" "r1"
      ∉ (joinCTFButtonCallback sampleEnv clickJoin okTwoCtf).trace ∧
    (ctfCommandCallback sampleEnv slashJoinMsg okTwoCtf).trace.filter Effect.isRoleAdd
      = [Effect.guildMemberRoleAdd "g1" "u1" "r2"] ∧
    Effect.guildMemberRoleAdd "g1" "u1" "r1"
      ∉ (ctfCommandCallback sampleEnv slashJoinMsg okTwoCtf).trace := by
  decide

/-- C8, amended: the role the join workflow selects is the last role of the
list whose name equals the group name.  If the fetched guild's role list is
`pre ++ last :: post` with `last` named `G` and no role of `post` named `G`,
the only add-member-role call of the button handler, and of the `join`
sub-command, is the one for `last.ID`. -/
theorem join_selects_last_match (k : Env) (i : InteractionCreate) (o : Outcomes)
    (G : String) (U : User) (g : Guild) (pre post : List Role) (last : Role)
    (hmsg : i.Message = some { Content := G })
    (hmem : i.Member = some { User := some U })
    (hg : o.guild = (some g, none))
    (hsplit : g.Roles = pre ++ last :: post)
    (hlast : last.Name = G)
    (hpost : ∀ r ∈ post, r.Name ≠ G) :
    (joinCTFButtonCallback k i o).trace.filter Effect.isRoleAdd
      = [Effect.guildMemberRoleAdd g.ID U.ID last.ID] ∧
    (∀ (opt : SubCommandOption) (rest : List SubCommandOption),
      i.Options = opt :: rest → opt.Name = "join" →
      (ctfCommandCallback k i o).trace.filter Effect.isRoleAdd
        = [Effect.guildMemberRoleAdd g.ID U.ID last.ID]) := by
  have hfind : findRoleLoop g.Roles G = some last := by
    rw [hsplit]; exact findRoleLoop_last pre post last G hlast hpost
  constructor
  · rw [button_run_found k i o G U g last hmsg hmem hg hfind]
    simp [Effect.isRoleAdd]
  · intro opt rest hopt hname
    rw [ctf_join_run_found k i o G U g last opt rest hopt hname hmsg hmem hg hfind]
    cases hre : o.respondErr <;> simp [statusReply, hre, Effect.isRoleAdd]

/-- Witness of C8, amended: of the two roles named "ctf", `r2` is passed. -/
theorem join_selects_last_match_witness :
    slashJoinMsg.Message = some { Content := "ctf" } ∧
    slashJoinMsg.Member = some { User := some bob } ∧
    okTwoCtf.guild = (some guildTwoCtf, none) ∧
    guildTwoCtf.Roles
      = [{ ID := "r0", Name := "@everyone" }, { ID := "r1", Name := "ctf" }]
        ++ { ID := "r2", Name := "ctf" } :: [] ∧
    ((joinCTFButtonCallback sampleEnv slashJoinMsg okTwoCtf).trace.filter Effect.isRoleAdd
      = [Effect.guildMemberRoleAdd guildTwoCtf.ID bob.ID "r2"] ∧
    (∀ (opt : SubCommandOption) (rest : List SubCommandOption),
      slashJoinMsg.Options = opt :: rest → opt.Name = "join" →
      (ctfCommandCallback sampleEnv slashJoinMsg okTwoCtf).trace.filter Effect.isRoleAdd
        = [Effect.guildMemberRoleAdd guildTwoCtf.ID bob.ID "r2"])) :=
  ⟨rfl, rfl, rfl, rfl,
   join_selects_last_match sampleEnv slashJoinMsg okTwoCtf "ctf" bob guildTwoCtf
     [{ ID := "r0", Name := "@everyone" }, { ID := "r1", Name := "ctf" }] []
     { ID := "r2", Name := "ctf" } rfl rfl rfl rfl rfl (by simp)⟩

/-- C9, the claim as stated fails: on `/ctf create ctf-name:ctf` with a
successful create-role, the edit-role call of the claim (hoist = true,
mentionable = false) is not issued; the one edit-role call has hoist = false
and mentionable = true. -/
theorem create_edit_not_hoisted :
    okPlain.roleCreate = (some { ID := "r9", Name := "new role" }, none) ∧
    Effect.guildRoleEdit "g0" "r9" "ctf" 0 true 0 false
      ∉ (ctfCommandCallback sampleEnv slashCreate okPlain).trace ∧
    (ctfCommandCallback sampleEnv slashCreate okPlain).trace.filter Effect.isRoleEdit
      = [Effect.guildRoleEdit "g0" "r9" "ctf" 0 false 0 true] := by
  decide

/-- C9, amended: when create-role succeeds with `newRole`, the `create`
sub-command with option value `ctfName` issues exactly one edit-role call, on
the configured guild and `newRole.ID`, with name `ctfName`, color 0,
hoist = false, permissions 0 and mentionable = true, whatever the later calls
return. -/
theorem create_edits_role_mentionable (k : Env) (i : InteractionCreate) (o : Outcomes)
    (opt : SubCommandOption) (rest : List SubCommandOption)
    (a : DataOption) (more : List DataOption) (ctfName : String) (newRole : Role)
    (hopt : i.Options = opt :: rest) (hname : opt.Name = "create")
    (harg : opt.Options = a :: more) (hval : a.Value = ctfName)
    (hrole : o.roleCreate = (some newRole, none)) :
    (ctfCommandCallback k i o).trace.filter Effect.isRoleEdit
      = [Effect.guildRoleEdit k.GuildID newRole.ID ctfName 0 false 0 true] := by
  subst hval
  rcases hg : o.guild with ⟨_ | g, gerr⟩
  · simp [ctfCommandCallback, createCase, hopt, hname, harg, hrole, hg, Effect.isRoleEdit]
  · rcases hroles : g.Roles with _ | ⟨base, others⟩
    · simp [ctfCommandCallback, createCase, hopt, hname, harg, hrole, hg, hroles,
        Effect.isRoleEdit]
    · rw [ctf_create_run_ok k i o opt rest a more newRole g gerr base others
            hopt hname harg hrole hg hroles]
      cases hre : o.respondErr <;> simp [statusReply, hre, Effect.isRoleEdit]

/-- Witness of C9, amended: `/ctf create ctf-name:ctf` when create-role
succeeds with the role `r9`. -/
theorem create_edits_role_mentionable_witness :
    slashCreate.Options
      = { Name := "create", Options := [{ Name := "ctf-name", Value := "ctf" }] } :: [] ∧
    okPlain.roleCreate = (some { ID := "r9", Name := "new role" }, none) ∧
    (ctfCommandCallback sampleEnv slashCreate okPlain).trace.filter Effect.isRoleEdit
      = [Effect.guildRoleEdit sampleEnv.GuildID "r9" "ctf" 0 false 0 true] :=
  ⟨rfl, rfl,
   create_edits_role_mentionable sampleEnv slashCreate okPlain
     { Name := "create", Options := [{ Name := "ctf-name", Value := "ctf" }] } []
     { Name := "ctf-name", Value := "ctf" } [] "ctf" { ID := "r9", Name := "new role" }
     rfl rfl rfl rfl rfl⟩

/-- C1, the code at the failing input: on `/ctf create ctf-name:ctf` where
create-role fails with "boom", the handler logs, calls create-role, fetches
the guild and then panics on `newRole.ID`; it sends no interaction response at
all, so no reply carries the failure reason. -/
theorem create_role_failure_sends_nothing :
    ctfCommandCallback sampleEnv slashCreate roleCreateFails
      = { trace := [Effect.logPrintf "New CTF Name given: ctf\n",
                    Effect.guildRoleCreate "g0",
                    Effect.guild "g1"],
          panicked := true } ∧
    (ctfCommandCallback sampleEnv slashCreate roleCreateFails).responses = [] := by
  decide

/-- C2, the code at the failing inputs: the `join` sub-command, when the role
is found, sends two interaction responses (the success reply and then the
status reply after the `switch`); and on a slash-command event, which carries
no message, it panics after the guild fetch and sends none. -/
theorem ctf_join_not_one_response :
    (ctfCommandCallback sampleEnv slashJoinMsg okTwoCtf).responses
      = [Effect.interactionRespond
           { Typ := 4, Content := "Added user bob to role ctf", Flags := 64 },
         Effect.interactionRespond { Typ := 4 }] ∧
    ctfCommandCallback sampleEnv slashJoin okTwoCtf
      = { trace := [Effect.guild "g1"], panicked := true } := by
  decide

/-- C6, the code at the failing inputs: the `create` sub-command panics when
get-guild fails (nil guild), when the fetched guild has an empty role list and
when create-role fails (nil role); the `join` sub-command panics on a
slash-command event that carries no message. -/
theorem handlers_can_panic :
    (ctfCommandCallback sampleEnv slashCreate guildFails).panicked = true ∧
    (ctfCommandCallback sampleEnv slashCreate guildNoRoles).panicked = true ∧
    (ctfCommandCallback sampleEnv slashCreate roleCreateFails).panicked = true ∧
    (ctfCommandCallback sampleEnv slashJoin okTwoCtf).panicked = true ∧
    (ctfCommandCallback sampleEnv slashCreate guildFails).responses = [] := by
  decide

/-- C10, the claim as stated fails: for one event that carries the guild, the
member, the message "ctf" and the sub-command `join`, and the same outcomes,
with the role found, the remote calls of the `join` sub-command are those of
the button handler followed by one more send of an interaction response, so
the two sequences differ. -/
theorem join_paths_differ :
    (ctfCommandCallback sampleEnv slashJoinMsg okTwoCtf).remoteCalls
      = (joinCTFButtonCallback sampleEnv slashJoinMsg okTwoCtf).remoteCalls
        ++ [Effect.interactionRespond { Typ := 4 }] ∧
    (ctfCommandCallback sampleEnv slashJoinMsg okTwoCtf).remoteCalls
      ≠ (joinCTFButtonCallback sampleEnv slashJoinMsg okTwoCtf).remoteCalls := by
  decide

/-- C10, amended: for every event and every outcome of the remote calls, the
remote calls of `joinCTFButtonCallback` are, in the same order and with the
same arguments, the first remote calls of `ctfCommandCallback` with
sub-command `join`, and the two handlers end the same way (both return or both
panic).  The two runs are equal whenever the join issues no add-member-role
call, and in particular whenever the event carries no message, as a command
invocation does. -/
theorem join_paths_agree_up_to_status_reply (k : Env) (i : InteractionCreate) (o : Outcomes)
    (opt : SubCommandOption) (rest : List SubCommandOption)
    (hopt : i.Options = opt :: rest) (hname : opt.Name = "join") :
    (joinCTFButtonCallback k i o).remoteCalls <+: (ctfCommandCallback k i o).remoteCalls ∧
    (joinCTFButtonCallback k i o).panicked = (ctfCommandCallback k i o).panicked ∧
    ((joinCTFButtonCallback k i o).trace.filter Effect.isRoleAdd = [] →
      ctfCommandCallback k i o = joinCTFButtonCallback k i o) ∧
    (i.Message = none → ctfCommandCallback k i o = joinCTFButtonCallback k i o) := by
  have hne : ¬ ("join" = "create") := by decide
  rcases hg : o.guild with ⟨gp, ge⟩
  cases ge with
  | some e =>
    simp [Run.remoteCalls, ctfCommandCallback, joinCase, joinCTFButtonCallback, hopt, hname,
      hne, hg]
  | none =>
    cases hm : i.Message with
    | none =>
      simp [Run.remoteCalls, ctfCommandCallback, joinCase, joinCTFButtonCallback, hopt, hname,
        hne, hg, hm]
    | some msg =>
      cases hmem : i.Member with
      | none =>
        simp [Run.remoteCalls, ctfCommandCallback, joinCase, joinCTFButtonCallback, hopt,
          hname, hne, hg, hm, hmem]
      | some member =>
        cases hu : member.User with
        | none =>
          simp [Run.remoteCalls, ctfCommandCallback, joinCase, joinCTFButtonCallback, hopt,
            hname, hne, hg, hm, hmem, hu]
        | some callingUser =>
          cases gp with
          | none =>
            simp [Run.remoteCalls, ctfCommandCallback, joinCase, joinCTFButtonCallback, hopt,
              hname, hne, hg, hm, hmem, hu]
          | some guild =>
            cases hf : findRoleLoop guild.Roles msg.Content with
            | none =>
              simp [Run.remoteCalls, ctfCommandCallback, joinCase, joinCTFButtonCallback,
                hopt, hname, hne, hg, hm, hmem, hu, hf]
            | some ctfRole =>
              simp [Run.remoteCalls, ctfCommandCallback, joinCase, joinCTFButtonCallback,
                hopt, hname, hne, hg, hm, hmem, hu, hf, Effect.isRoleAdd, Effect.isRemote]

/-- Witness of C10, amended: the event `/ctf join`, which carries no message,
in a guild that has roles named "ctf". -/
theorem join_paths_agree_up_to_status_reply_witness :
    slashJoin.Options = { Name := "join", Options := [] } :: [] ∧
    ((joinCTFButtonCallback sampleEnv slashJoin okTwoCtf).remoteCalls
      <+: (ctfCommandCallback sampleEnv slashJoin okTwoCtf).remoteCalls ∧
    (joinCTFButtonCallback sampleEnv slashJoin okTwoCtf).panicked
      = (ctfCommandCallback sampleEnv slashJoin okTwoCtf).panicked ∧
    ((joinCTFButtonCallback sampleEnv slashJoin okTwoCtf).trace.filter Effect.isRoleAdd = [] →
      ctfCommandCallback sampleEnv slashJoin okTwoCtf
        = joinCTFButtonCallback sampleEnv slashJoin okTwoCtf) ∧
    (slashJoin.Message = none →
      ctfCommandCallback sampleEnv slashJoin okTwoCtf
        = joinCTFButtonCallback sampleEnv slashJoin okTwoCtf)) :=
  ⟨rfl,
   join_paths_agree_up_to_status_reply sampleEnv slashJoin okTwoCtf
     { Name := "join", Options := [] } [] rfl rfl⟩

end HackpackBot
